import Mathlib

/-!
Verification development for the bvg-mcp-server repository: a shallow
embedding of its tool-schema validation layer, HTTP translation client and
per-tool handlers, together with theorems settling the specification's
testable properties. JavaScript numbers are modelled as exact rationals;
JavaScript `undefined` is modelled as `Option.none`.
-/

/-- A JSON value, the type of tool-argument values, query-parameter values
and upstream response bodies. -/
inductive Json where
  | null : Json
  | bool (b : Bool) : Json
  | num (q : ℚ) : Json
  | str (s : String) : Json
  | arr (xs : List Json) : Json
  | obj (fields : List (String × Json)) : Json

/-- Property lookup on a JSON object's field list (JavaScript `data.key`);
`none` models `undefined`. -/
def jlookup : List (String × Json) → String → Option Json
  | [], _ => none
  | (k, v) :: rest, key => if k = key then some v else jlookup rest key

/-- An argument mapping delivered with a tool invocation. -/
def Args : Type := List (String × Json)

/-- Field access on an arbitrary JSON value (JavaScript `data.key`):
`undefined` on non-objects. -/
def Json.getField : Json → String → Option Json
  | .obj fs, key => jlookup fs key
  | _, _ => none

/-- An upstream HTTP response: status code and decoded JSON body.
Network-level failure is out of scope of the claims and not modelled. -/
structure HttpResponse where
  status : Nat
  body : Json

/-- Embeds `BvgApiClient.isApiError` (src/utils/api.ts): the body is a
truthy object whose `error` property is `true` and whose `msg` property is
a string.  In JavaScript only plain objects can satisfy all three tests:
primitives fail the `typeof` test, `null` fails truthiness, and arrays have
no `error` property. -/
def isApiError : Json → Bool
  | .obj fs =>
      (match jlookup fs "error" with
        | some (.bool true) => true
        | _ => false) &&
        (match jlookup fs "msg" with
          | some (.str _) => true
          | _ => false)
  | _ => false

/-- The `msg` string of an error-shaped body (empty string otherwise);
mirrors the `data.msg` read in `BvgApiClient.get`. -/
def apiErrorMsg : Json → String
  | .obj fs =>
      match jlookup fs "msg" with
      | some (.str s) => s
      | _ => ""
  | _ => ""

/-- Embeds `BvgApiClient.get` (src/utils/api.ts) as a function of the
response the fetch produced.  `response.ok` is status 200-299; a non-ok
status raises `HTTP error! status: ...`; an error-shaped 2xx body raises
`BVG API error: ...`; both are re-wrapped by the surrounding catch with the
`Failed to fetch from BVG API: ` prefix.  Any other 2xx body is returned
as decoded. -/
def clientGet (resp : HttpResponse) : Except String Json :=
  if ¬ (200 ≤ resp.status ∧ resp.status ≤ 299) then
    .error ("Failed to fetch from BVG API: HTTP error! status: " ++ toString resp.status)
  else if isApiError resp.body then
    .error ("Failed to fetch from BVG API: BVG API error: " ++ apiErrorMsg resp.body)
  else
    .ok resp.body

/-! ## Zod schema layer

Each tool declares a zod object schema.  The combinators actually used are
`z.string().min(1)`, `z.string()`, `z.string().optional()`, `z.number()`,
`z.number().min(a).max(b).default(d)`, `z.boolean().default(d)`,
`z.enum([...]).default(d)` and `z.enum([...]).optional()`.  A plain
`z.object` parses in strip mode: keys not named in the shape are removed
from the output and never cause a failure.  Each schema is embedded as a
parse function from an argument mapping to `Option` of a typed parameter
record; `none` models a thrown `ZodError`. -/

/-- The `language` enum: `z.enum(['de', 'en'])`. -/
inductive Lang where
  | de : Lang
  | en : Lang
deriving DecidableEq, Repr

/-- Wire string of a `Lang` value. -/
def Lang.str : Lang → String
  | .de => "de"
  | .en => "en"

/-- The `walkingSpeed` enum: `z.enum(['slow', 'normal', 'fast'])`. -/
inductive WalkingSpeed where
  | slow : WalkingSpeed
  | normal : WalkingSpeed
  | fast : WalkingSpeed
deriving DecidableEq, Repr

/-- Wire string of a `WalkingSpeed` value. -/
def WalkingSpeed.str : WalkingSpeed → String
  | .slow => "slow"
  | .normal => "normal"
  | .fast => "fast"

/-- The `accessibility` enum: `z.enum(['partial', 'complete'])`. -/
inductive Accessibility where
  | partial_ : Accessibility
  | complete : Accessibility
deriving DecidableEq, Repr

/-- Wire string of an `Accessibility` value. -/
def Accessibility.str : Accessibility → String
  | .partial_ => "partial"
  | .complete => "complete"

/-- `z.string().min(1)` on field `k`: required, must be a string of length
at least 1. -/
def pString1 (args : Args) (k : String) : Option String :=
  match jlookup args k with
  | some (.str s) => if 1 ≤ s.length then some s else none
  | _ => none

/-- `z.string()` on field `k`: required, any string. -/
def pString (args : Args) (k : String) : Option String :=
  match jlookup args k with
  | some (.str s) => some s
  | _ => none

/-- `z.string().optional()` on field `k`: missing maps to `undefined`. -/
def pStringOpt (args : Args) (k : String) : Option (Option String) :=
  match jlookup args k with
  | none => some none
  | some (.str s) => some (some s)
  | _ => none

/-- `z.number()` on field `k`: required, any number. -/
def pNum (args : Args) (k : String) : Option ℚ :=
  match jlookup args k with
  | some (.num q) => some q
  | _ => none

/-- `z.number().min(lo).max(hi).default(d)` on field `k`. -/
def pNumDef (args : Args) (k : String) (lo hi d : ℚ) : Option ℚ :=
  match jlookup args k with
  | none => some d
  | some (.num q) => if lo ≤ q ∧ q ≤ hi then some q else none
  | _ => none

/-- `z.boolean().default(d)` on field `k`. -/
def pBoolDef (args : Args) (k : String) (d : Bool) : Option Bool :=
  match jlookup args k with
  | none => some d
  | some (.bool b) => some b
  | _ => none

/-- `z.enum(['de', 'en']).default('en')` on field `k`. -/
def pLangDef (args : Args) (k : String) : Option Lang :=
  match jlookup args k with
  | none => some .en
  | some (.str "de") => some .de
  | some (.str "en") => some .en
  | _ => none

/-- `z.enum(['slow', 'normal', 'fast']).default('normal')` on field `k`. -/
def pWalkingSpeedDef (args : Args) (k : String) : Option WalkingSpeed :=
  match jlookup args k with
  | none => some .normal
  | some (.str "slow") => some .slow
  | some (.str "normal") => some .normal
  | some (.str "fast") => some .fast
  | _ => none

/-- `z.enum(['partial', 'complete']).optional()` on field `k`. -/
def pAccessibilityOpt (args : Args) (k : String) : Option (Option Accessibility) :=
  match jlookup args k with
  | none => some none
  | some (.str "partial") => some (some .partial_)
  | some (.str "complete") => some (some .complete)
  | _ => none

/-- Parameter record of `LocationsSearchSchema` (src/tools/locations.ts). -/
structure LocationsSearchParams where
  query : String
  results : ℚ
  addresses : Bool
  poi : Bool
  linesOfStops : Bool
  language : Lang
deriving DecidableEq, Repr

/-- Embeds `LocationsSearchSchema.parse` (src/tools/locations.ts lines 9-16). -/
def LocationsSearchSchema.parse (args : Args) : Option LocationsSearchParams :=
  match pString1 args "query", pNumDef args "results" 1 100 10,
      pBoolDef args "addresses" true, pBoolDef args "poi" true,
      pBoolDef args "linesOfStops" false, pLangDef args "language" with
  | some query, some results, some addresses, some poi, some linesOfStops,
      some language =>
      some ⟨query, results, addresses, poi, linesOfStops, language⟩
  | _, _, _, _, _, _ => none

/-- Parameter record of `NearbyLocationsSchema` (src/tools/nearby.ts). -/
structure NearbyLocationsParams where
  coordinates : String
  results : ℚ
  distance : ℚ
  stops : Bool
  poi : Bool
  linesOfStops : Bool
  language : Lang
deriving DecidableEq, Repr

/-- Embeds `NearbyLocationsSchema.parse` (src/tools/nearby.ts lines 9-17). -/
def NearbyLocationsSchema.parse (args : Args) : Option NearbyLocationsParams :=
  match pString args "coordinates", pNumDef args "results" 1 100 8,
      pNumDef args "distance" 1 10000 1000, pBoolDef args "stops" true,
      pBoolDef args "poi" false, pBoolDef args "linesOfStops" false,
      pLangDef args "language" with
  | some coordinates, some results, some distance, some stops, some poi,
      some linesOfStops, some language =>
      some ⟨coordinates, results, distance, stops, poi, linesOfStops, language⟩
  | _, _, _, _, _, _, _ => none

/-- Parameter record of `StopDetailsSchema` (src/tools/stops.ts). -/
structure StopDetailsParams where
  stopId : String
  linesOfStops : Bool
  language : Lang
deriving DecidableEq, Repr

/-- Embeds `StopDetailsSchema.parse` (src/tools/stops.ts lines 10-14). -/
def StopDetailsSchema.parse (args : Args) : Option StopDetailsParams :=
  match pString1 args "stopId", pBoolDef args "linesOfStops" false,
      pLangDef args "language" with
  | some stopId, some linesOfStops, some language =>
      some ⟨stopId, linesOfStops, language⟩
  | _, _, _ => none

/-- Parameter record of `StopDeparturesSchema` (src/tools/stops.ts), shared
by the `bvg_stop_departures` and `bvg_stop_arrivals` tools. -/
structure StopDeparturesParams where
  stopId : String
  when : Option String
  duration : ℚ
  results : ℚ
  linesOfStops : Bool
  remarks : Bool
  language : Lang
deriving DecidableEq, Repr

/-- Embeds `StopDeparturesSchema.parse` (src/tools/stops.ts lines 21-29). -/
def StopDeparturesSchema.parse (args : Args) : Option StopDeparturesParams :=
  match pString1 args "stopId", pStringOpt args "when",
      pNumDef args "duration" 1 1440 120, pNumDef args "results" 1 100 10,
      pBoolDef args "linesOfStops" false, pBoolDef args "remarks" true,
      pLangDef args "language" with
  | some stopId, some when_, some duration, some results, some linesOfStops,
      some remarks, some language =>
      some ⟨stopId, when_, duration, results, linesOfStops, remarks, language⟩
  | _, _, _, _, _, _, _ => none

/-- Parameter record of `JourneyPlanSchema` (src/tools/journeys.ts). -/
structure JourneyPlanParams where
  «from» : String
  «to» : String
  via : Option String
  departure : Option String
  arrival : Option String
  results : ℚ
  stopovers : Bool
  transfers : ℚ
  transferTime : ℚ
  accessibility : Option Accessibility
  bike : Bool
  walkingSpeed : WalkingSpeed
  startWithWalking : Bool
  endWithWalking : Bool
  language : Lang
deriving DecidableEq, Repr

/-- Embeds `JourneyPlanSchema.parse` (src/tools/journeys.ts lines 10-26). -/
def JourneyPlanSchema.parse (args : Args) : Option JourneyPlanParams :=
  match pString1 args "from", pString1 args "to", pStringOpt args "via",
      pStringOpt args "departure", pStringOpt args "arrival",
      pNumDef args "results" 1 6 3, pBoolDef args "stopovers" false,
      pNumDef args "transfers" (-1) 10 (-1), pNumDef args "transferTime" 0 60 0,
      pAccessibilityOpt args "accessibility", pBoolDef args "bike" false,
      pWalkingSpeedDef args "walkingSpeed", pBoolDef args "startWithWalking" true,
      pBoolDef args "endWithWalking" true, pLangDef args "language" with
  | some from_, some to_, some via, some departure, some arrival, some results,
      some stopovers, some transfers, some transferTime, some accessibility,
      some bike, some walkingSpeed, some startWithWalking, some endWithWalking,
      some language =>
      some ⟨from_, to_, via, departure, arrival, results, stopovers, transfers,
        transferTime, accessibility, bike, walkingSpeed, startWithWalking,
        endWithWalking, language⟩
  | _, _, _, _, _, _, _, _, _, _, _, _, _, _, _ => none

/-- Parameter record of `TripDetailsSchema` (src/tools/additional.ts). -/
structure TripDetailsParams where
  tripId : String
  lineName : Option String
  stopovers : Bool
  polyline : Bool
  language : Lang
deriving DecidableEq, Repr

/-- Embeds `TripDetailsSchema.parse` (src/tools/additional.ts lines 10-16). -/
def TripDetailsSchema.parse (args : Args) : Option TripDetailsParams :=
  match pString1 args "tripId", pStringOpt args "lineName",
      pBoolDef args "stopovers" true, pBoolDef args "polyline" false,
      pLangDef args "language" with
  | some tripId, some lineName, some stopovers, some polyline, some language =>
      some ⟨tripId, lineName, stopovers, polyline, language⟩
  | _, _, _, _, _ => none

/-- Parameter record of `RadarSchema` (src/tools/additional.ts). -/
structure RadarParams where
  north : ℚ
  west : ℚ
  south : ℚ
  east : ℚ
  results : ℚ
  duration : ℚ
  frames : ℚ
  polylines : Bool
  language : Lang
deriving DecidableEq, Repr

/-- Embeds `RadarSchema.parse` (src/tools/additional.ts lines 23-33). -/
def RadarSchema.parse (args : Args) : Option RadarParams :=
  match pNum args "north", pNum args "west", pNum args "south", pNum args "east",
      pNumDef args "results" 1 256 256, pNumDef args "duration" 1 30 30,
      pNumDef args "frames" 1 20 3, pBoolDef args "polylines" true,
      pLangDef args "language" with
  | some north, some west, some south, some east, some results, some duration,
      some frames, some polylines, some language =>
      some ⟨north, west, south, east, results, duration, frames, polylines, language⟩
  | _, _, _, _, _, _, _, _, _ => none

/-! ## Coordinate parsing

`parseCoordinates` (src/utils/api.ts lines 84-100) splits on `,`, applies
JavaScript `parseFloat` to each trimmed component, takes the first two, and
range-checks them.  `parseFloat` is the ECMAScript builtin: it skips leading
whitespace, reads an optional sign, then the longest numeric-literal
sensible head of the string (`Infinity`, or digits with an optional decimal
point and exponent), ignoring everything after it; it yields `NaN` when no
numeric head exists.  Finite values are modelled exactly as rationals
(double rounding is not modelled); `NaN` is `Option.none`. -/

/-- A JavaScript number as `parseFloat` can produce it: a finite value or
an infinity.  `NaN` is represented by `Option.none` outside this type. -/
inductive JsFloat where
  | finite (q : ℚ) : JsFloat
  | posInf : JsFloat
  | negInf : JsFloat
deriving DecidableEq, Repr

/-- JavaScript `x < c` for a parsed number against a finite constant. -/
def JsFloat.ltQ : JsFloat → ℚ → Bool
  | .finite q, c => q < c
  | .posInf, _ => false
  | .negInf, _ => true

/-- JavaScript `x > c` for a parsed number against a finite constant. -/
def JsFloat.gtQ : JsFloat → ℚ → Bool
  | .finite q, c => q > c
  | .posInf, _ => true
  | .negInf, _ => false

/-- The finite value of a `JsFloat` (0 for the infinities; used only where
finiteness is separately established). -/
def JsFloat.toQ : JsFloat → ℚ
  | .finite q => q
  | _ => 0

/-- Numeric value of a digit list read in base 10. -/
def digitsNat (cs : List Char) : Nat :=
  cs.foldl (fun a c => 10 * a + (c.toNat - 48)) 0

/-- Value of a fractional digit list: `digitsNat cs / 10 ^ cs.length`. -/
def fracVal (cs : List Char) : ℚ :=
  (digitsNat cs : ℚ) / (10 : ℚ) ^ cs.length

/-- The optional exponent tail of a JavaScript number literal: if `rest`
starts with `e` or `E` followed by an optionally signed nonempty digit run,
scale `q` accordingly; otherwise leave `q` unchanged (the longest valid
head rule: a bare `e` is not consumed). -/
def applyExp (q : ℚ) (rest : List Char) : ℚ :=
  match rest with
  | e :: r2 =>
      if e = 'e' ∨ e = 'E' then
        let (eneg, r3) :=
          match r2 with
          | '-' :: t => (true, t)
          | '+' :: t => (false, t)
          | _ => (false, r2)
        let ed := r3.takeWhile Char.isDigit
        if ed.isEmpty then q
        else if eneg then q / (10 : ℚ) ^ digitsNat ed
        else q * (10 : ℚ) ^ digitsNat ed
      else q
  | [] => q

/-- The unsigned decimal head of `parseFloat`'s input: digits with an
optional decimal point, then an optional exponent; `none` when the input
has no digit before the end or the decimal point and none after it. -/
def parseUnsignedDec (cs : List Char) : Option ℚ :=
  let ip := cs.takeWhile Char.isDigit
  let r1 := cs.dropWhile Char.isDigit
  match r1 with
  | '.' :: r2 =>
      let fp := r2.takeWhile Char.isDigit
      let r3 := r2.dropWhile Char.isDigit
      if ip.isEmpty ∧ fp.isEmpty then none
      else some (applyExp ((digitsNat ip : ℚ) + fracVal fp) r3)
  | _ => if ip.isEmpty then none else some (applyExp (digitsNat ip : ℚ) r1)

/-- Whether the input starts with the literal `Infinity`. -/
def isInfinityHead : List Char → Bool
  | 'I' :: 'n' :: 'f' :: 'i' :: 'n' :: 'i' :: 't' :: 'y' :: _ => true
  | _ => false

/-- ECMAScript `parseFloat` on a character list: skip leading whitespace,
read an optional sign, then `Infinity` or an unsigned decimal head;
`none` is `NaN`. -/
def parseFloatL (cs : List Char) : Option JsFloat :=
  let cs1 := cs.dropWhile Char.isWhitespace
  let neg : Bool :=
    match cs1 with
    | '-' :: _ => true
    | _ => false
  let cs2 : List Char :=
    match cs1 with
    | '-' :: r => r
    | '+' :: r => r
    | _ => cs1
  if isInfinityHead cs2 then
    some (if neg then .negInf else .posInf)
  else
    match parseUnsignedDec cs2 with
    | none => none
    | some q => some (.finite (if neg then -q else q))

/-- JavaScript `String.prototype.trim` on a character list (whitespace at
both ends removed). -/
def jsTrim (cs : List Char) : List Char :=
  ((cs.dropWhile Char.isWhitespace).reverse.dropWhile Char.isWhitespace).reverse

/-- JavaScript `s.split(',')` on a character list: the comma-separated
pieces, `[[]]` for the empty input. -/
def splitComma : List Char → List (List Char)
  | [] => [[]]
  | c :: rest =>
      if c = ',' then [] :: splitComma rest
      else
        match splitComma rest with
        | [] => [[c]]
        | h :: t => (c :: h) :: t

/-- Embeds `parseCoordinates` (src/utils/api.ts lines 84-100):
`coords.split(',').map(s => parseFloat(s.trim()))`, destructure the first
two entries (a missing second entry is `undefined`, which `isNaN` treats
like `NaN`), fail on `NaN`, then range-check latitude and longitude. -/
def parseCoordinatesL (cs : List Char) : Except String (JsFloat × JsFloat) :=
  let parts := (splitComma cs).map fun s => parseFloatL (jsTrim s)
  match (parts.get? 0).join, (parts.get? 1).join with
  | some lat, some lon =>
      if lat.ltQ (-90) || lat.gtQ 90 then
        .error "Latitude must be between -90 and 90"
      else if lon.ltQ (-180) || lon.gtQ 180 then
        .error "Longitude must be between -180 and 180"
      else
        .ok (lat, lon)
  | _, _ => .error "Invalid coordinates format. Expected \"latitude,longitude\""

/-- `parseCoordinates` on a string. -/
def parseCoordinates (coords : String) : Except String (JsFloat × JsFloat) :=
  parseCoordinatesL coords.toList

/-- Embeds `validateStopId` (src/utils/api.ts lines 105-107): a non-empty
string check. -/
def validateStopId (stopId : String) : Bool :=
  0 < stopId.length

/-- An unsigned decimal numeral as the specification's coordinate form
uses it: a nonempty digit run, optionally a decimal point followed by a
nonempty digit run. -/
def isUnsignedNumeral (cs : List Char) : Bool :=
  !(cs.takeWhile Char.isDigit).isEmpty &&
    (match cs.dropWhile Char.isDigit with
      | [] => true
      | '.' :: f => !f.isEmpty && f.all Char.isDigit
      | _ => false)

/-- A decimal numeral with an optional leading minus sign. -/
def isNumeral : List Char → Bool
  | '-' :: r => isUnsignedNumeral r
  | cs => isUnsignedNumeral cs

/-- Value of an unsigned decimal numeral. -/
def unsignedVal (cs : List Char) : ℚ :=
  match cs.dropWhile Char.isDigit with
  | '.' :: f => (digitsNat (cs.takeWhile Char.isDigit) : ℚ) + fracVal f
  | _ => (digitsNat (cs.takeWhile Char.isDigit) : ℚ)

/-- Value of a signed decimal numeral. -/
def numeralVal : List Char → ℚ
  | '-' :: r => -(unsignedVal r)
  | cs => unsignedVal cs

/-- The specification's words for the coordinate parser's accepted input,
stated generously: after splitting on the comma and trimming each side,
exactly two components, each a decimal numeral (two decimal numbers
separated by a single comma, optional leading minus, optional surrounding
whitespace).  This is the reference form the parser is compared against;
it is not part of the source. -/
def specCoordForm (s : String) : Bool :=
  match (splitComma s.toList).map jsTrim with
  | [a, b] => isNumeral a && isNumeral b
  | _ => false

/-! ## Per-tool handlers

Each handler builds an endpoint path and a flat query mapping from its
validated parameters (raising its domain-specific errors before any HTTP
work), issues one GET through the client, and reshapes the response.  The
HTTP boundary is abstracted by an oracle giving the response the fetch
would produce for a request; a handler's result is `Except` of the
re-wrapped error message or the value it returns (`Option Json`, with
`none` for JavaScript `undefined`). -/

/-- An outbound upstream request: endpoint path and flat query mapping
(the mapping handed to `BvgApiClient.get`). -/
structure ApiRequest where
  endpoint : String
  params : List (String × Json)

/-- The HTTP boundary: the response produced for a given endpoint and
query mapping. -/
def HttpOracle : Type := String → List (String × Json) → HttpResponse

/-- JavaScript truthiness of an optional string (`undefined` and the empty
string are falsy). -/
def truthy : Option String → Bool
  | none => false
  | some s => !(s == "")

/-- `if (params.k) queryParams.k = params.k` on an optional string field:
append the entry only when the value is truthy. -/
def addIfTruthy (qp : List (String × Json)) (k : String) (v : Option String) :
    List (String × Json) :=
  match v with
  | some s => if s = "" then qp else qp ++ [(k, .str s)]
  | none => qp

/-- Hexadecimal digit character, uppercase. -/
def hexDigitChar (n : Nat) : Char :=
  if n < 10 then Char.ofNat (48 + n) else Char.ofNat (55 + n)

/-- Bytes `encodeURIComponent` leaves unescaped: ASCII alphanumerics and
`- _ . ! ~ * ' ( )`. -/
def isUnreservedByte (n : Nat) : Bool :=
  (65 ≤ n && n ≤ 90) || (97 ≤ n && n ≤ 122) || (48 ≤ n && n ≤ 57) ||
    n == 45 || n == 95 || n == 46 || n == 33 || n == 126 || n == 42 ||
    n == 39 || n == 40 || n == 41

/-- The UTF-8 byte sequence of one character. -/
def utf8Bytes (c : Char) : List Nat :=
  let n := c.toNat
  if n < 0x80 then [n]
  else if n < 0x800 then [0xC0 + n / 64, 0x80 + n % 64]
  else if n < 0x10000 then
    [0xE0 + n / 4096, 0x80 + n / 64 % 64, 0x80 + n % 64]
  else
    [0xF0 + n / 262144, 0x80 + n / 4096 % 64, 0x80 + n / 64 % 64, 0x80 + n % 64]

/-- JavaScript `encodeURIComponent`: percent-encode every UTF-8 byte
outside the unreserved set. -/
def encodeURIComponent (s : String) : String :=
  ⟨(s.data.flatMap utf8Bytes).foldr
    (fun b acc =>
      if isUnreservedByte b then Char.ofNat b :: acc
      else '%' :: hexDigitChar (b / 16) :: hexDigitChar (b % 16) :: acc)
    []⟩

/-- The request `executeLocationsSearch` (src/tools/locations.ts) issues. -/
def locationsSearchRequest (p : LocationsSearchParams) : ApiRequest :=
  ⟨"/locations",
    [("query", .str p.query), ("results", .num p.results),
      ("addresses", .bool p.addresses), ("poi", .bool p.poi),
      ("linesOfStops", .bool p.linesOfStops), ("language", .str p.language.str)]⟩

/-- Embeds `executeLocationsSearch`: one GET, the body returned as-is,
failures re-wrapped with the handler's message. -/
def executeLocationsSearch (p : LocationsSearchParams) (http : HttpOracle) :
    Except String (Option Json) :=
  let req := locationsSearchRequest p
  match clientGet (http req.endpoint req.params) with
  | .error e => .error ("Failed to search locations: " ++ e)
  | .ok body => .ok (some body)

/-- The request `executeNearbyLocations` (src/tools/nearby.ts) issues, or
the coordinate-parsing error raised before any HTTP work (thrown outside
the handler's try, hence un-prefixed). -/
def nearbyLocationsRequest (p : NearbyLocationsParams) : Except String ApiRequest :=
  match parseCoordinates p.coordinates with
  | .error e => .error e
  | .ok (lat, lon) =>
      .ok ⟨"/locations/nearby",
        [("latitude", .num lat.toQ), ("longitude", .num lon.toQ),
          ("results", .num p.results), ("distance", .num p.distance),
          ("stops", .bool p.stops), ("poi", .bool p.poi),
          ("linesOfStops", .bool p.linesOfStops), ("language", .str p.language.str)]⟩

/-- Embeds `executeNearbyLocations`. -/
def executeNearbyLocations (p : NearbyLocationsParams) (http : HttpOracle) :
    Except String (Option Json) :=
  match nearbyLocationsRequest p with
  | .error e => .error e
  | .ok req =>
      match clientGet (http req.endpoint req.params) with
      | .error e => .error ("Failed to find nearby locations: " ++ e)
      | .ok body => .ok (some body)

/-- The request `executeStopDetails` (src/tools/stops.ts) issues, or the
stop-id guard error raised before any HTTP work. -/
def stopDetailsRequest (p : StopDetailsParams) : Except String ApiRequest :=
  if ¬ validateStopId p.stopId then .error "Invalid stop ID provided"
  else
    .ok ⟨"/stops/" ++ encodeURIComponent p.stopId,
      [("linesOfStops", .bool p.linesOfStops), ("language", .str p.language.str)]⟩

/-- Embeds `executeStopDetails`. -/
def executeStopDetails (p : StopDetailsParams) (http : HttpOracle) :
    Except String (Option Json) :=
  match stopDetailsRequest p with
  | .error e => .error e
  | .ok req =>
      match clientGet (http req.endpoint req.params) with
      | .error e => .error ("Failed to get stop details: " ++ e)
      | .ok body => .ok (some body)

/-- The request `executeStopDepartures` (src/tools/stops.ts) issues, or
the stop-id guard error. -/
def stopDeparturesRequest (p : StopDeparturesParams) : Except String ApiRequest :=
  if ¬ validateStopId p.stopId then .error "Invalid stop ID provided"
  else
    .ok ⟨"/stops/" ++ encodeURIComponent p.stopId ++ "/departures",
      addIfTruthy
        [("duration", .num p.duration), ("results", .num p.results),
          ("linesOfStops", .bool p.linesOfStops), ("remarks", .bool p.remarks),
          ("language", .str p.language.str)]
        "when" p.when⟩

/-- Embeds `executeStopDepartures`: unwraps the `departures` field of the
response body. -/
def executeStopDepartures (p : StopDeparturesParams) (http : HttpOracle) :
    Except String (Option Json) :=
  match stopDeparturesRequest p with
  | .error e => .error e
  | .ok req =>
      match clientGet (http req.endpoint req.params) with
      | .error e => .error ("Failed to get stop departures: " ++ e)
      | .ok body => .ok (body.getField "departures")

/-- The request `executeStopArrivals` (src/tools/stops.ts) issues, or the
stop-id guard error. -/
def stopArrivalsRequest (p : StopDeparturesParams) : Except String ApiRequest :=
  if ¬ validateStopId p.stopId then .error "Invalid stop ID provided"
  else
    .ok ⟨"/stops/" ++ encodeURIComponent p.stopId ++ "/arrivals",
      addIfTruthy
        [("duration", .num p.duration), ("results", .num p.results),
          ("linesOfStops", .bool p.linesOfStops), ("remarks", .bool p.remarks),
          ("language", .str p.language.str)]
        "when" p.when⟩

/-- Embeds `executeStopArrivals`: unwraps the `arrivals` field of the
response body. -/
def executeStopArrivals (p : StopDeparturesParams) (http : HttpOracle) :
    Except String (Option Json) :=
  match stopArrivalsRequest p with
  | .error e => .error e
  | .ok req =>
      match clientGet (http req.endpoint req.params) with
      | .error e => .error ("Failed to get stop arrivals: " ++ e)
      | .ok body => .ok (body.getField "arrivals")

/-- The request `executeJourneyPlan` (src/tools/journeys.ts) issues, or
the mutual-exclusion error raised before any HTTP work: both `departure`
and `arrival` truthy is rejected, and the optional fields are appended to
the query only when truthy. -/
def journeyPlanRequest (p : JourneyPlanParams) : Except String ApiRequest :=
  if truthy p.departure && truthy p.arrival then
    .error "Cannot specify both departure and arrival time. Choose one."
  else
    let qp :=
      [("from", Json.str p.«from»), ("to", Json.str p.«to»),
        ("results", Json.num p.results), ("stopovers", Json.bool p.stopovers),
        ("transfers", Json.num p.transfers), ("transferTime", Json.num p.transferTime),
        ("bike", Json.bool p.bike), ("walkingSpeed", Json.str p.walkingSpeed.str),
        ("startWithWalking", Json.bool p.startWithWalking),
        ("endWithWalking", Json.bool p.endWithWalking),
        ("language", Json.str p.language.str)]
    let qp := addIfTruthy qp "via" p.via
    let qp := addIfTruthy qp "departure" p.departure
    let qp := addIfTruthy qp "arrival" p.arrival
    let qp :=
      match p.accessibility with
      | some a => qp ++ [("accessibility", Json.str a.str)]
      | none => qp
    .ok ⟨"/journeys", qp⟩

/-- Embeds `executeJourneyPlan`: unwraps the `journeys` field of the
response body. -/
def executeJourneyPlan (p : JourneyPlanParams) (http : HttpOracle) :
    Except String (Option Json) :=
  match journeyPlanRequest p with
  | .error e => .error e
  | .ok req =>
      match clientGet (http req.endpoint req.params) with
      | .error e => .error ("Failed to plan journey: " ++ e)
      | .ok body => .ok (body.getField "journeys")

/-- The request `executeTripDetails` (src/tools/additional.ts) issues:
base query plus `lineName` when truthy. -/
def tripDetailsRequest (p : TripDetailsParams) : ApiRequest :=
  ⟨"/trips/" ++ encodeURIComponent p.tripId,
    addIfTruthy
      [("stopovers", .bool p.stopovers), ("polyline", .bool p.polyline),
        ("language", .str p.language.str)]
      "lineName" p.lineName⟩

/-- Embeds `executeTripDetails`: unwraps the `trip` field of the response
body. -/
def executeTripDetails (p : TripDetailsParams) (http : HttpOracle) :
    Except String (Option Json) :=
  let req := tripDetailsRequest p
  match clientGet (http req.endpoint req.params) with
  | .error e => .error ("Failed to get trip details: " ++ e)
  | .ok body => .ok (body.getField "trip")

/-- The request `executeRadar` (src/tools/additional.ts lines 80-107)
issues, or one of the bounding-box errors raised before any HTTP work. -/
def radarRequest (p : RadarParams) : Except String ApiRequest :=
  if p.north ≤ p.south then
    .error "Northern boundary must be greater than southern boundary"
  else if p.east ≤ p.west then
    .error "Eastern boundary must be greater than western boundary"
  else
    .ok ⟨"/radar",
      [("north", .num p.north), ("west", .num p.west), ("south", .num p.south),
        ("east", .num p.east), ("results", .num p.results),
        ("duration", .num p.duration), ("frames", .num p.frames),
        ("polylines", .bool p.polylines), ("language", .str p.language.str)]⟩

/-- Embeds `executeRadar`. -/
def executeRadar (p : RadarParams) (http : HttpOracle) :
    Except String (Option Json) :=
  match radarRequest p with
  | .error e => .error e
  | .ok req =>
      match clientGet (http req.endpoint req.params) with
      | .error e => .error ("Failed to execute radar search: " ++ e)
      | .ok body => .ok (some body)

/-! ## Dispatcher

`createServer`'s CallTool handler (src/index.ts lines 84-209): look the
tool up by name, parse the arguments with its zod schema, run the handler,
serialize the result.  A `McpError` thrown inside the try (only the
MethodNotFound one) is re-thrown unchanged; every other thrown error —
a `ZodError` from `.parse` or a handler failure — is wrapped as an
InternalError reading `Tool execution failed: ...`. -/

/-- Outcome of one tool invocation at the protocol boundary. -/
inductive DispatchResult where
  | methodNotFound (msg : String) : DispatchResult
  | internalError (msg : String) : DispatchResult
  | success (payload : Option Json) : DispatchResult

/-- Stands for the message text of a thrown `ZodError`; its exact wording
(zod's issue list) is not modelled. -/
def zodMessage : String := "invalid arguments"

/-- Wraps a handler outcome for the response channel. -/
def wrapHandler : Except String (Option Json) → DispatchResult
  | .error e => .internalError ("Tool execution failed: " ++ e)
  | .ok v => .success v

/-- The eight registered tool names (src/index.ts). -/
def toolNames : List String :=
  ["bvg_locations_search", "bvg_locations_nearby", "bvg_stop_details",
    "bvg_stop_departures", "bvg_stop_arrivals", "bvg_journey_plan",
    "bvg_trip_details", "bvg_radar"]

/-- Embeds the CallTool dispatch of `createServer` (src/index.ts): the
switch on the tool name, schema validation, handler execution, error
wrapping.  `bvg_stop_arrivals` validates with `StopDeparturesSchema`,
exactly as the source does. -/
def dispatch (name : String) (args : Args) (http : HttpOracle) : DispatchResult :=
  match name with
  | "bvg_locations_search" =>
      match LocationsSearchSchema.parse args with
      | none => .internalError ("Tool execution failed: " ++ zodMessage)
      | some p => wrapHandler (executeLocationsSearch p http)
  | "bvg_locations_nearby" =>
      match NearbyLocationsSchema.parse args with
      | none => .internalError ("Tool execution failed: " ++ zodMessage)
      | some p => wrapHandler (executeNearbyLocations p http)
  | "bvg_stop_details" =>
      match StopDetailsSchema.parse args with
      | none => .internalError ("Tool execution failed: " ++ zodMessage)
      | some p => wrapHandler (executeStopDetails p http)
  | "bvg_stop_departures" =>
      match StopDeparturesSchema.parse args with
      | none => .internalError ("Tool execution failed: " ++ zodMessage)
      | some p => wrapHandler (executeStopDepartures p http)
  | "bvg_stop_arrivals" =>
      match StopDeparturesSchema.parse args with
      | none => .internalError ("Tool execution failed: " ++ zodMessage)
      | some p => wrapHandler (executeStopArrivals p http)
  | "bvg_journey_plan" =>
      match JourneyPlanSchema.parse args with
      | none => .internalError ("Tool execution failed: " ++ zodMessage)
      | some p => wrapHandler (executeJourneyPlan p http)
  | "bvg_trip_details" =>
      match TripDetailsSchema.parse args with
      | none => .internalError ("Tool execution failed: " ++ zodMessage)
      | some p => wrapHandler (executeTripDetails p http)
  | "bvg_radar" =>
      match RadarSchema.parse args with
      | none => .internalError ("Tool execution failed: " ++ zodMessage)
      | some p => wrapHandler (executeRadar p http)
  | _ => .methodNotFound ("Unknown tool: " ++ name)

/-! ## Supporting lemmas -/

theorem jlookup_cons_of_ne (k key : String) (v : Json) (args : List (String × Json))
    (h : ¬ k = key) : jlookup ((k, v) :: args) key = jlookup args key := by
  simp [jlookup, h]

theorem jlookup_append_of_none (l1 l2 : List (String × Json)) (k : String)
    (h : jlookup l1 k = none) : jlookup (l1 ++ l2) k = jlookup l2 k := by
  induction l1 with
  | nil => rfl
  | cons hd tl ih =>
      obtain ⟨k1, v1⟩ := hd
      by_cases hk : k1 = k
      · subst hk; simp [jlookup] at h
      · simp only [jlookup, List.cons_append, if_neg hk] at h ⊢
        exact ih h

theorem append_ne_of_length (a e b : String) (h : b.length < a.length) : ¬ (a ++ e = b) := by
  intro hab
  have hl := congrArg String.length hab
  rw [String.length_append] at hl
  omega

/-! ## Parse elimination lemmas

A successful schema parse pins every field of the output record to its
combinator result; one lemma per schema, reused by several claims below. -/

theorem locationsSearch_parse_elim (args : Args) (p : LocationsSearchParams)
    (hp : LocationsSearchSchema.parse args = some p) :
    pString1 args "query" = some p.query ∧
    pNumDef args "results" 1 100 10 = some p.results ∧
    pBoolDef args "addresses" true = some p.addresses ∧
    pBoolDef args "poi" true = some p.poi ∧
    pBoolDef args "linesOfStops" false = some p.linesOfStops ∧
    pLangDef args "language" = some p.language := by
  unfold LocationsSearchSchema.parse at hp
  split at hp
  · rename_i q1 q2 q3 q4 q5 q6 h1 h2 h3 h4 h5 h6
    obtain rfl : (⟨q1, q2, q3, q4, q5, q6⟩ : LocationsSearchParams) = p := by simpa using hp
    exact ⟨h1, h2, h3, h4, h5, h6⟩
  all_goals exact Option.noConfusion hp

theorem nearbyLocations_parse_elim (args : Args) (p : NearbyLocationsParams)
    (hp : NearbyLocationsSchema.parse args = some p) :
    pString args "coordinates" = some p.coordinates ∧
    pNumDef args "results" 1 100 8 = some p.results ∧
    pNumDef args "distance" 1 10000 1000 = some p.distance ∧
    pBoolDef args "stops" true = some p.stops ∧
    pBoolDef args "poi" false = some p.poi ∧
    pBoolDef args "linesOfStops" false = some p.linesOfStops ∧
    pLangDef args "language" = some p.language := by
  unfold NearbyLocationsSchema.parse at hp
  split at hp
  · rename_i q1 q2 q3 q4 q5 q6 q7 h1 h2 h3 h4 h5 h6 h7
    obtain rfl : (⟨q1, q2, q3, q4, q5, q6, q7⟩ : NearbyLocationsParams) = p := by simpa using hp
    exact ⟨h1, h2, h3, h4, h5, h6, h7⟩
  all_goals exact Option.noConfusion hp

theorem stopDetails_parse_elim (args : Args) (p : StopDetailsParams)
    (hp : StopDetailsSchema.parse args = some p) :
    pString1 args "stopId" = some p.stopId ∧
    pBoolDef args "linesOfStops" false = some p.linesOfStops ∧
    pLangDef args "language" = some p.language := by
  unfold StopDetailsSchema.parse at hp
  split at hp
  · rename_i q1 q2 q3 h1 h2 h3
    obtain rfl : (⟨q1, q2, q3⟩ : StopDetailsParams) = p := by simpa using hp
    exact ⟨h1, h2, h3⟩
  all_goals exact Option.noConfusion hp

theorem stopDepartures_parse_elim (args : Args) (p : StopDeparturesParams)
    (hp : StopDeparturesSchema.parse args = some p) :
    pString1 args "stopId" = some p.stopId ∧
    pStringOpt args "when" = some p.when ∧
    pNumDef args "duration" 1 1440 120 = some p.duration ∧
    pNumDef args "results" 1 100 10 = some p.results ∧
    pBoolDef args "linesOfStops" false = some p.linesOfStops ∧
    pBoolDef args "remarks" true = some p.remarks ∧
    pLangDef args "language" = some p.language := by
  unfold StopDeparturesSchema.parse at hp
  split at hp
  · rename_i q1 q2 q3 q4 q5 q6 q7 h1 h2 h3 h4 h5 h6 h7
    obtain rfl : (⟨q1, q2, q3, q4, q5, q6, q7⟩ : StopDeparturesParams) = p := by simpa using hp
    exact ⟨h1, h2, h3, h4, h5, h6, h7⟩
  all_goals exact Option.noConfusion hp

theorem journeyPlan_parse_elim (args : Args) (p : JourneyPlanParams)
    (hp : JourneyPlanSchema.parse args = some p) :
    pString1 args "from" = some p.«from» ∧
    pString1 args "to" = some p.«to» ∧
    pStringOpt args "via" = some p.via ∧
    pStringOpt args "departure" = some p.departure ∧
    pStringOpt args "arrival" = some p.arrival ∧
    pNumDef args "results" 1 6 3 = some p.results ∧
    pBoolDef args "stopovers" false = some p.stopovers ∧
    pNumDef args "transfers" (-1) 10 (-1) = some p.transfers ∧
    pNumDef args "transferTime" 0 60 0 = some p.transferTime ∧
    pAccessibilityOpt args "accessibility" = some p.accessibility ∧
    pBoolDef args "bike" false = some p.bike ∧
    pWalkingSpeedDef args "walkingSpeed" = some p.walkingSpeed ∧
    pBoolDef args "startWithWalking" true = some p.startWithWalking ∧
    pBoolDef args "endWithWalking" true = some p.endWithWalking ∧
    pLangDef args "language" = some p.language := by
  unfold JourneyPlanSchema.parse at hp
  split at hp
  · rename_i q1 q2 q3 q4 q5 q6 q7 q8 q9 q10 q11 q12 q13 q14 q15 h1 h2 h3 h4 h5 h6 h7 h8 h9 h10 h11 h12 h13 h14 h15
    obtain rfl : (⟨q1, q2, q3, q4, q5, q6, q7, q8, q9, q10, q11, q12, q13, q14, q15⟩ : JourneyPlanParams) = p := by simpa using hp
    exact ⟨h1, h2, h3, h4, h5, h6, h7, h8, h9, h10, h11, h12, h13, h14, h15⟩
  all_goals exact Option.noConfusion hp

theorem tripDetails_parse_elim (args : Args) (p : TripDetailsParams)
    (hp : TripDetailsSchema.parse args = some p) :
    pString1 args "tripId" = some p.tripId ∧
    pStringOpt args "lineName" = some p.lineName ∧
    pBoolDef args "stopovers" true = some p.stopovers ∧
    pBoolDef args "polyline" false = some p.polyline ∧
    pLangDef args "language" = some p.language := by
  unfold TripDetailsSchema.parse at hp
  split at hp
  · rename_i q1 q2 q3 q4 q5 h1 h2 h3 h4 h5
    obtain rfl : (⟨q1, q2, q3, q4, q5⟩ : TripDetailsParams) = p := by simpa using hp
    exact ⟨h1, h2, h3, h4, h5⟩
  all_goals exact Option.noConfusion hp

theorem radar_parse_elim (args : Args) (p : RadarParams)
    (hp : RadarSchema.parse args = some p) :
    pNum args "north" = some p.north ∧
    pNum args "west" = some p.west ∧
    pNum args "south" = some p.south ∧
    pNum args "east" = some p.east ∧
    pNumDef args "results" 1 256 256 = some p.results ∧
    pNumDef args "duration" 1 30 30 = some p.duration ∧
    pNumDef args "frames" 1 20 3 = some p.frames ∧
    pBoolDef args "polylines" true = some p.polylines ∧
    pLangDef args "language" = some p.language := by
  unfold RadarSchema.parse at hp
  split at hp
  · rename_i q1 q2 q3 q4 q5 q6 q7 q8 q9 h1 h2 h3 h4 h5 h6 h7 h8 h9
    obtain rfl : (⟨q1, q2, q3, q4, q5, q6, q7, q8, q9⟩ : RadarParams) = p := by simpa using hp
    exact ⟨h1, h2, h3, h4, h5, h6, h7, h8, h9⟩
  all_goals exact Option.noConfusion hp

/-! ## Claim C4 -/

/-- Claim C4: every 2xx response whose decoded body matches the error shape
(an object whose `error` property is `true` and whose `msg` property is a
string) makes the HTTP client's get fail with an error carrying that `msg`
text; such a body is never returned as a successful result. -/
theorem claim_C4_upstream_error_shape (status : Nat) (fs : List (String × Json)) (m : String)
    (h1 : 200 ≤ status) (h2 : status ≤ 299)
    (herr : jlookup fs "error" = some (.bool true))
    (hmsg : jlookup fs "msg" = some (.str m)) :
    clientGet ⟨status, .obj fs⟩ =
      .error ("Failed to fetch from BVG API: BVG API error: " ++ m) := by
  simp [clientGet, isApiError, apiErrorMsg, herr, hmsg, h1, h2]

/-- Witness for C4: status 200 with body `error: true, msg: "no results"`. -/
theorem claim_C4_witness :
    clientGet ⟨200, .obj [("error", .bool true), ("msg", .str "no results")]⟩ =
      .error ("Failed to fetch from BVG API: BVG API error: " ++ "no results") :=
  claim_C4_upstream_error_shape 200 _ "no results" (by decide) (by decide) rfl rfl

/-! ## Claim C5 -/

/-- Claim C5: every validated radar parameter set with `north <= south` or
`east <= west` fails with the bounding-box error before any HTTP call (the
outcome is the same error for every HTTP oracle), and the set
`north=52.6, south=52.5, east=13.5, west=13.3` passes the check. -/
theorem claim_C5_radar_bounding_box (p : RadarParams) :
    (p.north ≤ p.south ∨ p.east ≤ p.west →
      ∃ m, radarRequest p = .error m ∧ ∀ http, executeRadar p http = .error m) ∧
    (p.north = 52.6 → p.south = 52.5 → p.east = 13.5 → p.west = 13.3 →
      (radarRequest p).isOk = true) := by
  constructor
  · intro h
    by_cases hns : p.north ≤ p.south
    · exact ⟨"Northern boundary must be greater than southern boundary",
        by simp [radarRequest, hns],
        fun http => by simp [executeRadar, radarRequest, hns]⟩
    · have hew : p.east ≤ p.west := h.resolve_left hns
      exact ⟨"Eastern boundary must be greater than western boundary",
        by simp [radarRequest, hns, hew],
        fun http => by simp [executeRadar, radarRequest, hns, hew]⟩
  · intro hn hs he hw
    simp only [radarRequest, hn, hs, he, hw]
    rw [if_neg (by norm_num), if_neg (by norm_num)]
    rfl

/-- Witness for C5: `north=1, south=2` fails for every oracle; the spec's
concrete in-order box passes. -/
theorem claim_C5_witness :
    (∃ m, radarRequest ⟨1, 0, 2, 3, 256, 30, 3, true, .en⟩ = .error m ∧
      ∀ http, executeRadar ⟨1, 0, 2, 3, 256, 30, 3, true, .en⟩ http = .error m) ∧
    (radarRequest ⟨52.6, 13.3, 52.5, 13.5, 256, 30, 3, true, .en⟩).isOk = true :=
  ⟨(claim_C5_radar_bounding_box ⟨1, 0, 2, 3, 256, 30, 3, true, .en⟩).1 (.inl (by decide)),
   (claim_C5_radar_bounding_box ⟨52.6, 13.3, 52.5, 13.5, 256, 30, 3, true, .en⟩).2
     rfl rfl rfl rfl⟩

/-! ## Claim C10 -/

/-- Claim C10: the radar tool has no geographic range check — every four
numbers with `north > south` and `east > west` pass both schema validation
and the handler's bounding-box check, and the HTTP request is built, even
far outside the real latitude/longitude ranges. -/
theorem claim_C10_radar_no_range_check (n w s e : ℚ) (hns : s < n) (hew : w < e) :
    RadarSchema.parse
        [("north", .num n), ("west", .num w), ("south", .num s), ("east", .num e)] =
      some ⟨n, w, s, e, 256, 30, 3, true, .en⟩ ∧
    radarRequest ⟨n, w, s, e, 256, 30, 3, true, .en⟩ =
      .ok ⟨"/radar",
        [("north", .num n), ("west", .num w), ("south", .num s), ("east", .num e),
          ("results", .num 256), ("duration", .num 30), ("frames", .num 3),
          ("polylines", .bool true), ("language", .str "en")]⟩ := by
  refine ⟨rfl, ?_⟩
  simp [radarRequest, Lang.str, not_le.mpr hns, not_le.mpr hew]

/-- Witness for C10 at the claim's far-out-of-range box
`north=200, south=100, east=500, west=400`. -/
theorem claim_C10_witness :
    RadarSchema.parse
        [("north", .num 200), ("west", .num 400), ("south", .num 100), ("east", .num 500)] =
      some ⟨200, 400, 100, 500, 256, 30, 3, true, .en⟩ ∧
    radarRequest ⟨200, 400, 100, 500, 256, 30, 3, true, .en⟩ =
      .ok ⟨"/radar",
        [("north", .num 200), ("west", .num 400), ("south", .num 100), ("east", .num 500),
          ("results", .num 256), ("duration", .num 30), ("frames", .num 3),
          ("polylines", .bool true), ("language", .str "en")]⟩ :=
  claim_C10_radar_no_range_check 200 400 100 500 (by decide) (by decide)

/-! ## Claim C6 -/

/-- Claim C6: on a successful upstream response whose body is
`departures: L` (resp. `arrivals: L`, `journeys: L`), the stop-departures
(resp. stop-arrivals, journey-plan) handler returns exactly the list `L`. -/
theorem claim_C6_response_unwrapping :
    (∀ (p : StopDeparturesParams) (req : ApiRequest) (http : HttpOracle)
        (status : Nat) (L : List Json),
        200 ≤ status → status ≤ 299 →
        stopDeparturesRequest p = .ok req →
        http req.endpoint req.params = ⟨status, .obj [("departures", .arr L)]⟩ →
        executeStopDepartures p http = .ok (some (.arr L))) ∧
    (∀ (p : StopDeparturesParams) (req : ApiRequest) (http : HttpOracle)
        (status : Nat) (L : List Json),
        200 ≤ status → status ≤ 299 →
        stopArrivalsRequest p = .ok req →
        http req.endpoint req.params = ⟨status, .obj [("arrivals", .arr L)]⟩ →
        executeStopArrivals p http = .ok (some (.arr L))) ∧
    (∀ (p : JourneyPlanParams) (req : ApiRequest) (http : HttpOracle)
        (status : Nat) (L : List Json),
        200 ≤ status → status ≤ 299 →
        journeyPlanRequest p = .ok req →
        http req.endpoint req.params = ⟨status, .obj [("journeys", .arr L)]⟩ →
        executeJourneyPlan p http = .ok (some (.arr L))) := by
  refine ⟨?_, ?_, ?_⟩ <;>
    · intro p req http status L h1 h2 hreq hhttp
      simp [executeStopDepartures, executeStopArrivals, executeJourneyPlan, hreq, hhttp,
        clientGet, isApiError, jlookup, Json.getField, h1, h2]

/-- Witness for C6: a two-element departures body at a concrete stop. -/
theorem claim_C6_witness :
    executeStopDepartures ⟨"900000024101", none, 120, 10, false, true, .en⟩
        (fun _ _ => ⟨200, .obj [("departures", .arr [.str "A", .str "B"])]⟩) =
      .ok (some (.arr [.str "A", .str "B"])) :=
  claim_C6_response_unwrapping.1 ⟨"900000024101", none, 120, 10, false, true, .en⟩
    ⟨"/stops/900000024101/departures",
      [("duration", .num 120), ("results", .num 10), ("linesOfStops", .bool false),
        ("remarks", .bool true), ("language", .str "en")]⟩
    (fun _ _ => ⟨200, .obj [("departures", .arr [.str "A", .str "B"])]⟩)
    200 [.str "A", .str "B"] (by decide) (by decide) rfl rfl

/-! ## Claim C9 -/

theorem pString1_length (args : Args) (k s : String)
    (h : pString1 args k = some s) : 1 ≤ s.length := by
  unfold pString1 at h
  split at h
  · rw [Option.ite_none_right_eq_some, Option.some_inj] at h
    obtain ⟨hlen, rfl⟩ := h
    exact hlen
  · exact absurd h (by simp)

theorem executeStopDetails_guard_ne (p : StopDetailsParams) (http : HttpOracle)
    (hv : validateStopId p.stopId = true) :
    executeStopDetails p http ≠ .error "Invalid stop ID provided" := by
  intro hcon
  unfold executeStopDetails at hcon
  split at hcon
  · rename_i e h
    unfold stopDetailsRequest at h
    rw [if_neg (not_not_intro hv)] at h
    exact Except.noConfusion h
  · rename_i req h
    split at hcon
    · rename_i e2 h2
      injection hcon with hmsg
      exact append_ne_of_length "Failed to get stop details: " e2
        "Invalid stop ID provided" (by decide) hmsg
    · exact Except.noConfusion hcon

theorem executeStopDepartures_guard_ne (p : StopDeparturesParams) (http : HttpOracle)
    (hv : validateStopId p.stopId = true) :
    executeStopDepartures p http ≠ .error "Invalid stop ID provided" := by
  intro hcon
  unfold executeStopDepartures at hcon
  split at hcon
  · rename_i e h
    unfold stopDeparturesRequest at h
    rw [if_neg (not_not_intro hv)] at h
    exact Except.noConfusion h
  · rename_i req h
    split at hcon
    · rename_i e2 h2
      injection hcon with hmsg
      exact append_ne_of_length "Failed to get stop departures: " e2
        "Invalid stop ID provided" (by decide) hmsg
    · exact Except.noConfusion hcon

theorem executeStopArrivals_guard_ne (p : StopDeparturesParams) (http : HttpOracle)
    (hv : validateStopId p.stopId = true) :
    executeStopArrivals p http ≠ .error "Invalid stop ID provided" := by
  intro hcon
  unfold executeStopArrivals at hcon
  split at hcon
  · rename_i e h
    unfold stopArrivalsRequest at h
    rw [if_neg (not_not_intro hv)] at h
    exact Except.noConfusion h
  · rename_i req h
    split at hcon
    · rename_i e2 h2
      injection hcon with hmsg
      exact append_ne_of_length "Failed to get stop arrivals: " e2
        "Invalid stop ID provided" (by decide) hmsg
    · exact Except.noConfusion hcon

/-- Claim C9: a parameter set accepted by the stop schemas has a non-empty
`stopId`, so the `validateStopId` guard in the stop-details, departures and
arrivals handlers evaluates to true and their `Invalid stop ID provided`
error branch is unreachable. -/
theorem claim_C9_stop_guard_unreachable :
    (∀ (args : Args) (p : StopDetailsParams), StopDetailsSchema.parse args = some p →
      validateStopId p.stopId = true ∧
      ∀ http, executeStopDetails p http ≠ .error "Invalid stop ID provided") ∧
    (∀ (args : Args) (p : StopDeparturesParams), StopDeparturesSchema.parse args = some p →
      validateStopId p.stopId = true ∧
      (∀ http, executeStopDepartures p http ≠ .error "Invalid stop ID provided") ∧
      (∀ http, executeStopArrivals p http ≠ .error "Invalid stop ID provided")) := by
  have hlen : ∀ (args : Args) (s : String), pString1 args "stopId" = some s →
      validateStopId s = true := by
    intro args s hs
    have := pString1_length args "stopId" s hs
    simp [validateStopId]
    omega
  constructor
  · intro args p hp
    obtain ⟨hs, -, -⟩ := stopDetails_parse_elim args p hp
    have hv := hlen args p.stopId hs
    exact ⟨hv, fun http => executeStopDetails_guard_ne p http hv⟩
  · intro args p hp
    obtain ⟨hs, -, -, -, -, -, -⟩ := stopDepartures_parse_elim args p hp
    have hv := hlen args p.stopId hs
    exact ⟨hv, fun http => executeStopDepartures_guard_ne p http hv,
      fun http => executeStopArrivals_guard_ne p http hv⟩

/-- Witness for C9 at a concrete schema-validated stop-details argument
mapping and a fixed oracle. -/
theorem claim_C9_witness :
    validateStopId (("X" : String)) = true ∧
    executeStopDetails ⟨"X", false, .en⟩ (fun _ _ => ⟨200, .null⟩) ≠
      .error "Invalid stop ID provided" :=
  ⟨(claim_C9_stop_guard_unreachable.1 [("stopId", .str "X")] ⟨"X", false, .en⟩ rfl).1,
   (claim_C9_stop_guard_unreachable.1 [("stopId", .str "X")] ⟨"X", false, .en⟩ rfl).2
     (fun _ _ => ⟨200, .null⟩)⟩

/-! ## Claim C2 -/

theorem pString1_cons (k key : String) (v : Json) (args : Args) (h : ¬ k = key) :
    pString1 ((k, v) :: args) key = pString1 args key := by
  unfold pString1
  rw [jlookup_cons_of_ne _ _ _ _ h]

theorem pString_cons (k key : String) (v : Json) (args : Args) (h : ¬ k = key) :
    pString ((k, v) :: args) key = pString args key := by
  unfold pString
  rw [jlookup_cons_of_ne _ _ _ _ h]

theorem pStringOpt_cons (k key : String) (v : Json) (args : Args) (h : ¬ k = key) :
    pStringOpt ((k, v) :: args) key = pStringOpt args key := by
  unfold pStringOpt
  rw [jlookup_cons_of_ne _ _ _ _ h]

theorem pNum_cons (k key : String) (v : Json) (args : Args) (h : ¬ k = key) :
    pNum ((k, v) :: args) key = pNum args key := by
  unfold pNum
  rw [jlookup_cons_of_ne _ _ _ _ h]

theorem pNumDef_cons (k key : String) (v : Json) (args : Args) (lo hi d : ℚ)
    (h : ¬ k = key) : pNumDef ((k, v) :: args) key lo hi d = pNumDef args key lo hi d := by
  unfold pNumDef
  rw [jlookup_cons_of_ne _ _ _ _ h]

theorem pBoolDef_cons (k key : String) (v : Json) (args : Args) (d : Bool)
    (h : ¬ k = key) : pBoolDef ((k, v) :: args) key d = pBoolDef args key d := by
  unfold pBoolDef
  rw [jlookup_cons_of_ne _ _ _ _ h]

theorem pLangDef_cons (k key : String) (v : Json) (args : Args) (h : ¬ k = key) :
    pLangDef ((k, v) :: args) key = pLangDef args key := by
  unfold pLangDef
  rw [jlookup_cons_of_ne _ _ _ _ h]

theorem pWalkingSpeedDef_cons (k key : String) (v : Json) (args : Args) (h : ¬ k = key) :
    pWalkingSpeedDef ((k, v) :: args) key = pWalkingSpeedDef args key := by
  unfold pWalkingSpeedDef
  rw [jlookup_cons_of_ne _ _ _ _ h]

theorem pAccessibilityOpt_cons (k key : String) (v : Json) (args : Args) (h : ¬ k = key) :
    pAccessibilityOpt ((k, v) :: args) key = pAccessibilityOpt args key := by
  unfold pAccessibilityOpt
  rw [jlookup_cons_of_ne _ _ _ _ h]

/-- Counterexample to claim C2 as stated: an argument mapping with the
unknown field `unknownField` is not rejected — `LocationsSearchSchema`
validates it successfully (zod object schemas strip unknown keys). -/
theorem claim_C2_counterexample :
    LocationsSearchSchema.parse [("query", .str "Alexanderplatz"), ("unknownField", .num 1)] =
      some ⟨"Alexanderplatz", 10, true, true, false, .en⟩ := rfl

/-- Claim C2 as amended: an unknown extra field is silently stripped, never
rejected — for every tool schema, parsing is insensitive to an argument
entry whose name is outside the declared constraint set. -/
theorem claim_C2_unknown_fields_stripped (k : String) (v : Json) (args : Args) :
    (¬ k ∈ ["query", "results", "addresses", "poi", "linesOfStops", "language"] →
      LocationsSearchSchema.parse ((k, v) :: args) = LocationsSearchSchema.parse args) ∧
    (¬ k ∈ ["coordinates", "results", "distance", "stops", "poi", "linesOfStops",
        "language"] →
      NearbyLocationsSchema.parse ((k, v) :: args) = NearbyLocationsSchema.parse args) ∧
    (¬ k ∈ ["stopId", "linesOfStops", "language"] →
      StopDetailsSchema.parse ((k, v) :: args) = StopDetailsSchema.parse args) ∧
    (¬ k ∈ ["stopId", "when", "duration", "results", "linesOfStops", "remarks",
        "language"] →
      StopDeparturesSchema.parse ((k, v) :: args) = StopDeparturesSchema.parse args) ∧
    (¬ k ∈ ["from", "to", "via", "departure", "arrival", "results", "stopovers",
        "transfers", "transferTime", "accessibility", "bike", "walkingSpeed",
        "startWithWalking", "endWithWalking", "language"] →
      JourneyPlanSchema.parse ((k, v) :: args) = JourneyPlanSchema.parse args) ∧
    (¬ k ∈ ["tripId", "lineName", "stopovers", "polyline", "language"] →
      TripDetailsSchema.parse ((k, v) :: args) = TripDetailsSchema.parse args) ∧
    (¬ k ∈ ["north", "west", "south", "east", "results", "duration", "frames",
        "polylines", "language"] →
      RadarSchema.parse ((k, v) :: args) = RadarSchema.parse args) := by
  refine ⟨?_, ?_, ?_, ?_, ?_, ?_, ?_⟩ <;> intro hk <;>
      simp only [List.mem_cons, not_or] at hk
  · obtain ⟨h1, h2, h3, h4, h5, h6, -⟩ := hk
    unfold LocationsSearchSchema.parse
    simp only [pString1_cons k "query" v args h1, pNumDef_cons k "results" v args 1 100 10 h2,
      pBoolDef_cons k "addresses" v args true h3, pBoolDef_cons k "poi" v args true h4,
      pBoolDef_cons k "linesOfStops" v args false h5, pLangDef_cons k "language" v args h6]
  · obtain ⟨h1, h2, h3, h4, h5, h6, h7, -⟩ := hk
    unfold NearbyLocationsSchema.parse
    simp only [pString_cons k "coordinates" v args h1,
      pNumDef_cons k "results" v args 1 100 8 h2,
      pNumDef_cons k "distance" v args 1 10000 1000 h3,
      pBoolDef_cons k "stops" v args true h4, pBoolDef_cons k "poi" v args false h5,
      pBoolDef_cons k "linesOfStops" v args false h6, pLangDef_cons k "language" v args h7]
  · obtain ⟨h1, h2, h3, -⟩ := hk
    unfold StopDetailsSchema.parse
    simp only [pString1_cons k "stopId" v args h1,
      pBoolDef_cons k "linesOfStops" v args false h2, pLangDef_cons k "language" v args h3]
  · obtain ⟨h1, h2, h3, h4, h5, h6, h7, -⟩ := hk
    unfold StopDeparturesSchema.parse
    simp only [pString1_cons k "stopId" v args h1, pStringOpt_cons k "when" v args h2,
      pNumDef_cons k "duration" v args 1 1440 120 h3,
      pNumDef_cons k "results" v args 1 100 10 h4,
      pBoolDef_cons k "linesOfStops" v args false h5, pBoolDef_cons k "remarks" v args true h6,
      pLangDef_cons k "language" v args h7]
  · obtain ⟨h1, h2, h3, h4, h5, h6, h7, h8, h9, h10, h11, h12, h13, h14, h15, -⟩ := hk
    unfold JourneyPlanSchema.parse
    rw [pString1_cons k "from" v args h1, pString1_cons k "to" v args h2,
      pStringOpt_cons k "via" v args h3, pStringOpt_cons k "departure" v args h4,
      pStringOpt_cons k "arrival" v args h5, pNumDef_cons k "results" v args 1 6 3 h6,
      pBoolDef_cons k "stopovers" v args false h7,
      pNumDef_cons k "transfers" v args (-1) 10 (-1) h8,
      pNumDef_cons k "transferTime" v args 0 60 0 h9,
      pAccessibilityOpt_cons k "accessibility" v args h10,
      pBoolDef_cons k "bike" v args false h11,
      pWalkingSpeedDef_cons k "walkingSpeed" v args h12,
      pBoolDef_cons k "startWithWalking" v args true h13,
      pBoolDef_cons k "endWithWalking" v args true h14,
      pLangDef_cons k "language" v args h15]
  · obtain ⟨h1, h2, h3, h4, h5, -⟩ := hk
    unfold TripDetailsSchema.parse
    simp only [pString1_cons k "tripId" v args h1, pStringOpt_cons k "lineName" v args h2,
      pBoolDef_cons k "stopovers" v args true h3, pBoolDef_cons k "polyline" v args false h4,
      pLangDef_cons k "language" v args h5]
  · obtain ⟨h1, h2, h3, h4, h5, h6, h7, h8, h9, -⟩ := hk
    unfold RadarSchema.parse
    simp only [pNum_cons k "north" v args h1, pNum_cons k "west" v args h2,
      pNum_cons k "south" v args h3, pNum_cons k "east" v args h4,
      pNumDef_cons k "results" v args 1 256 256 h5,
      pNumDef_cons k "duration" v args 1 30 30 h6, pNumDef_cons k "frames" v args 1 20 3 h7,
      pBoolDef_cons k "polylines" v args true h8, pLangDef_cons k "language" v args h9]

/-- Witness for C2: an unknown field alongside a valid `query` leaves
locations-search validation unchanged. -/
theorem claim_C2_witness :
    LocationsSearchSchema.parse [("unknownField", .num 1), ("query", .str "x")] =
      LocationsSearchSchema.parse [("query", .str "x")] :=
  (claim_C2_unknown_fields_stripped "unknownField" (.num 1) [("query", .str "x")]).1
    (by decide)

/-! ## Claim C3 -/

theorem pStringOpt_of_str (args : Args) (k s : String)
    (h : jlookup args k = some (.str s)) : pStringOpt args k = some (some s) := by
  simp [pStringOpt, h]

theorem pStringOpt_of_missing (args : Args) (k : String)
    (h : jlookup args k = none) : pStringOpt args k = some none := by
  simp [pStringOpt, h]


theorem addIfTruthy_none (l : List (String × Json)) (k : String) :
    addIfTruthy l k none = l := rfl

theorem jlookup_addIfTruthy_ne (l : List (String × Json)) (k key : String)
    (v : Option String) (hne : ¬ k = key) (h : jlookup l key = none) :
    jlookup (addIfTruthy l k v) key = none := by
  rcases v with _ | s
  · exact h
  · by_cases hs : s = ""
    · simpa [addIfTruthy, hs] using h
    · simp only [addIfTruthy, if_neg hs]
      rw [jlookup_append_of_none _ _ _ h]
      simp [jlookup, hne]

theorem journeyPlanRequest_both_truthy (p : JourneyPlanParams)
    (h : (truthy p.departure && truthy p.arrival) = true) :
    journeyPlanRequest p =
      .error "Cannot specify both departure and arrival time. Choose one." := by
  unfold journeyPlanRequest
  rw [if_pos h]

theorem executeJourneyPlan_of_request_error (p : JourneyPlanParams) (m : String)
    (http : HttpOracle) (h : journeyPlanRequest p = .error m) :
    executeJourneyPlan p http = .error m := by
  unfold executeJourneyPlan
  rw [h]

theorem journeyPlanRequest_neither (p : JourneyPlanParams) (hd : p.departure = none)
    (ha : p.arrival = none) :
    ∃ req, journeyPlanRequest p = .ok req ∧
      jlookup req.params "departure" = none ∧ jlookup req.params "arrival" = none := by
  have hdep1 : jlookup (addIfTruthy
      [("from", Json.str p.«from»), ("to", Json.str p.«to»),
        ("results", Json.num p.results), ("stopovers", Json.bool p.stopovers),
        ("transfers", Json.num p.transfers), ("transferTime", Json.num p.transferTime),
        ("bike", Json.bool p.bike), ("walkingSpeed", Json.str p.walkingSpeed.str),
        ("startWithWalking", Json.bool p.startWithWalking),
        ("endWithWalking", Json.bool p.endWithWalking),
        ("language", Json.str p.language.str)] "via" p.via) "departure" = none :=
    jlookup_addIfTruthy_ne _ "via" "departure" p.via (by decide) rfl
  have harr1 : jlookup (addIfTruthy
      [("from", Json.str p.«from»), ("to", Json.str p.«to»),
        ("results", Json.num p.results), ("stopovers", Json.bool p.stopovers),
        ("transfers", Json.num p.transfers), ("transferTime", Json.num p.transferTime),
        ("bike", Json.bool p.bike), ("walkingSpeed", Json.str p.walkingSpeed.str),
        ("startWithWalking", Json.bool p.startWithWalking),
        ("endWithWalking", Json.bool p.endWithWalking),
        ("language", Json.str p.language.str)] "via" p.via) "arrival" = none :=
    jlookup_addIfTruthy_ne _ "via" "arrival" p.via (by decide) rfl
  simp only [journeyPlanRequest]
  rw [hd, ha, if_neg (by decide)]
  rcases hac : p.accessibility with _ | acc
  · refine ⟨_, rfl, ?_, ?_⟩
    · rw [addIfTruthy_none, addIfTruthy_none]
      exact hdep1
    · rw [addIfTruthy_none, addIfTruthy_none]
      exact harr1
  · refine ⟨_, rfl, ?_, ?_⟩
    · rw [addIfTruthy_none, addIfTruthy_none]
      exact (jlookup_append_of_none _ _ _ hdep1).trans rfl
    · rw [addIfTruthy_none, addIfTruthy_none]
      exact (jlookup_append_of_none _ _ _ harr1).trans rfl

/-- Counterexample to claim C3 as stated: an argument mapping supplying
both `departure` (as the empty string) and `arrival` validates and reaches
the HTTP request without any error — JavaScript truthiness treats the
empty string as absent. -/
theorem claim_C3_counterexample :
    JourneyPlanSchema.parse
        [("from", .str "A"), ("to", .str "B"), ("departure", .str ""),
          ("arrival", .str "2024-01-01T00:00:00Z")] =
      some ⟨"A", "B", none, some "", some "2024-01-01T00:00:00Z", 3, false, -1, 0,
        none, false, .normal, true, true, .en⟩ ∧
    journeyPlanRequest
        ⟨"A", "B", none, some "", some "2024-01-01T00:00:00Z", 3, false, -1, 0,
          none, false, .normal, true, true, .en⟩ =
      .ok ⟨"/journeys",
        [("from", .str "A"), ("to", .str "B"), ("results", .num 3),
          ("stopovers", .bool false), ("transfers", .num (-1)), ("transferTime", .num 0),
          ("bike", .bool false), ("walkingSpeed", .str "normal"),
          ("startWithWalking", .bool true), ("endWithWalking", .bool true),
          ("language", .str "en"), ("arrival", .str "2024-01-01T00:00:00Z")]⟩ :=
  ⟨rfl, rfl⟩

/-- Claim C3 as amended: supplying both `departure` and `arrival` with
non-empty string values fails with the mutual-exclusion error before any
HTTP request (the outcome is the same for every oracle); supplying neither
proceeds with both omitted from the outbound query mapping. -/
theorem claim_C3_journey_mutual_exclusion :
    (∀ (args : Args) (p : JourneyPlanParams) (d a : String),
      JourneyPlanSchema.parse args = some p →
      jlookup args "departure" = some (.str d) → ¬ d = "" →
      jlookup args "arrival" = some (.str a) → ¬ a = "" →
      journeyPlanRequest p =
        .error "Cannot specify both departure and arrival time. Choose one." ∧
      ∀ http, executeJourneyPlan p http =
        .error "Cannot specify both departure and arrival time. Choose one.") ∧
    (∀ (args : Args) (p : JourneyPlanParams),
      JourneyPlanSchema.parse args = some p →
      jlookup args "departure" = none → jlookup args "arrival" = none →
      ∃ req, journeyPlanRequest p = .ok req ∧
        jlookup req.params "departure" = none ∧ jlookup req.params "arrival" = none) := by
  constructor
  · intro args p d a hp hjd hd hja ha
    obtain ⟨-, -, -, hdp, har, -, -, -, -, -, -, -, -, -, -⟩ :=
      journeyPlan_parse_elim args p hp
    have hdep : p.departure = some d := by
      have := (pStringOpt_of_str args "departure" d hjd).symm.trans hdp
      simpa using this.symm
    have harr : p.arrival = some a := by
      have := (pStringOpt_of_str args "arrival" a hja).symm.trans har
      simpa using this.symm
    have hreq := journeyPlanRequest_both_truthy p
      (by rw [hdep, harr]; simp [truthy, hd, ha])
    exact ⟨hreq, fun http => executeJourneyPlan_of_request_error p _ http hreq⟩
  · intro args p hp hjd hja
    obtain ⟨-, -, -, hdp, har, -, -, -, -, -, -, -, -, -, -⟩ :=
      journeyPlan_parse_elim args p hp
    have hdep : p.departure = none := by
      have := (pStringOpt_of_missing args "departure" hjd).symm.trans hdp
      simpa using this.symm
    have harr : p.arrival = none := by
      have := (pStringOpt_of_missing args "arrival" hja).symm.trans har
      simpa using this.symm
    exact journeyPlanRequest_neither p hdep harr

/-- Witness for C3: both branches of the amended claim at concrete
argument mappings. -/
theorem claim_C3_witness :
    (journeyPlanRequest
        ⟨"A", "B", none, some "2024-01-01T10:00:00Z", some "2024-01-01T12:00:00Z", 3,
          false, -1, 0, none, false, .normal, true, true, .en⟩ =
      .error "Cannot specify both departure and arrival time. Choose one.") ∧
    (∃ req, journeyPlanRequest
        ⟨"A", "B", none, none, none, 3, false, -1, 0, none, false, .normal, true,
          true, .en⟩ = .ok req ∧
      jlookup req.params "departure" = none ∧ jlookup req.params "arrival" = none) :=
  ⟨(claim_C3_journey_mutual_exclusion.1
      [("from", .str "A"), ("to", .str "B"),
        ("departure", .str "2024-01-01T10:00:00Z"),
        ("arrival", .str "2024-01-01T12:00:00Z")]
      ⟨"A", "B", none, some "2024-01-01T10:00:00Z", some "2024-01-01T12:00:00Z", 3,
        false, -1, 0, none, false, .normal, true, true, .en⟩
      "2024-01-01T10:00:00Z" "2024-01-01T12:00:00Z"
      rfl rfl (by decide) rfl (by decide)).1,
   claim_C3_journey_mutual_exclusion.2
      [("from", .str "A"), ("to", .str "B")]
      ⟨"A", "B", none, none, none, 3, false, -1, 0, none, false, .normal, true,
        true, .en⟩
      rfl rfl rfl⟩

/-! ## Claim C8 -/

theorem pNumDef_default {args : Args} {k : String} {lo hi d x : ℚ}
    (h : pNumDef args k lo hi d = some x) (hn : jlookup args k = none) : x = d := by
  unfold pNumDef at h
  rw [hn] at h
  simpa using h.symm

theorem pBoolDef_default {args : Args} {k : String} {d x : Bool}
    (h : pBoolDef args k d = some x) (hn : jlookup args k = none) : x = d := by
  unfold pBoolDef at h
  rw [hn] at h
  simpa using h.symm

theorem pLangDef_default {args : Args} {k : String} {x : Lang}
    (h : pLangDef args k = some x) (hn : jlookup args k = none) : x = .en := by
  unfold pLangDef at h
  rw [hn] at h
  simpa using h.symm

theorem pWalkingSpeedDef_default {args : Args} {k : String} {x : WalkingSpeed}
    (h : pWalkingSpeedDef args k = some x) (hn : jlookup args k = none) : x = .normal := by
  unfold pWalkingSpeedDef at h
  rw [hn] at h
  simpa using h.symm

/-- Claim C8: for every tool, in every successfully validated parameter
set, each optional field that was omitted from the argument mapping
carries exactly its declared default. -/
theorem claim_C8_defaults :
    (∀ (args : Args) (p : LocationsSearchParams),
      LocationsSearchSchema.parse args = some p →
      (jlookup args "results" = none → p.results = 10) ∧
      (jlookup args "addresses" = none → p.addresses = true) ∧
      (jlookup args "poi" = none → p.poi = true) ∧
      (jlookup args "linesOfStops" = none → p.linesOfStops = false) ∧
      (jlookup args "language" = none → p.language = .en)) ∧
    (∀ (args : Args) (p : NearbyLocationsParams),
      NearbyLocationsSchema.parse args = some p →
      (jlookup args "results" = none → p.results = 8) ∧
      (jlookup args "distance" = none → p.distance = 1000) ∧
      (jlookup args "stops" = none → p.stops = true) ∧
      (jlookup args "poi" = none → p.poi = false) ∧
      (jlookup args "linesOfStops" = none → p.linesOfStops = false) ∧
      (jlookup args "language" = none → p.language = .en)) ∧
    (∀ (args : Args) (p : StopDetailsParams),
      StopDetailsSchema.parse args = some p →
      (jlookup args "linesOfStops" = none → p.linesOfStops = false) ∧
      (jlookup args "language" = none → p.language = .en)) ∧
    (∀ (args : Args) (p : StopDeparturesParams),
      StopDeparturesSchema.parse args = some p →
      (jlookup args "duration" = none → p.duration = 120) ∧
      (jlookup args "results" = none → p.results = 10) ∧
      (jlookup args "linesOfStops" = none → p.linesOfStops = false) ∧
      (jlookup args "remarks" = none → p.remarks = true) ∧
      (jlookup args "language" = none → p.language = .en)) ∧
    (∀ (args : Args) (p : JourneyPlanParams),
      JourneyPlanSchema.parse args = some p →
      (jlookup args "results" = none → p.results = 3) ∧
      (jlookup args "stopovers" = none → p.stopovers = false) ∧
      (jlookup args "transfers" = none → p.transfers = -1) ∧
      (jlookup args "transferTime" = none → p.transferTime = 0) ∧
      (jlookup args "bike" = none → p.bike = false) ∧
      (jlookup args "walkingSpeed" = none → p.walkingSpeed = .normal) ∧
      (jlookup args "startWithWalking" = none → p.startWithWalking = true) ∧
      (jlookup args "endWithWalking" = none → p.endWithWalking = true) ∧
      (jlookup args "language" = none → p.language = .en)) ∧
    (∀ (args : Args) (p : TripDetailsParams),
      TripDetailsSchema.parse args = some p →
      (jlookup args "stopovers" = none → p.stopovers = true) ∧
      (jlookup args "polyline" = none → p.polyline = false) ∧
      (jlookup args "language" = none → p.language = .en)) ∧
    (∀ (args : Args) (p : RadarParams),
      RadarSchema.parse args = some p →
      (jlookup args "results" = none → p.results = 256) ∧
      (jlookup args "duration" = none → p.duration = 30) ∧
      (jlookup args "frames" = none → p.frames = 3) ∧
      (jlookup args "polylines" = none → p.polylines = true) ∧
      (jlookup args "language" = none → p.language = .en)) := by
  refine ⟨?_, ?_, ?_, ?_, ?_, ?_, ?_⟩
  · intro args p hp
    obtain ⟨h1, h2, h3, h4, h5, h6⟩ := locationsSearch_parse_elim args p hp
    exact ⟨fun hn => pNumDef_default h2 hn, fun hn => pBoolDef_default h3 hn,
      fun hn => pBoolDef_default h4 hn, fun hn => pBoolDef_default h5 hn,
      fun hn => pLangDef_default h6 hn⟩
  · intro args p hp
    obtain ⟨h1, h2, h3, h4, h5, h6, h7⟩ := nearbyLocations_parse_elim args p hp
    exact ⟨fun hn => pNumDef_default h2 hn, fun hn => pNumDef_default h3 hn,
      fun hn => pBoolDef_default h4 hn, fun hn => pBoolDef_default h5 hn,
      fun hn => pBoolDef_default h6 hn, fun hn => pLangDef_default h7 hn⟩
  · intro args p hp
    obtain ⟨h1, h2, h3⟩ := stopDetails_parse_elim args p hp
    exact ⟨fun hn => pBoolDef_default h2 hn, fun hn => pLangDef_default h3 hn⟩
  · intro args p hp
    obtain ⟨h1, h2, h3, h4, h5, h6, h7⟩ := stopDepartures_parse_elim args p hp
    exact ⟨fun hn => pNumDef_default h3 hn, fun hn => pNumDef_default h4 hn,
      fun hn => pBoolDef_default h5 hn, fun hn => pBoolDef_default h6 hn,
      fun hn => pLangDef_default h7 hn⟩
  · intro args p hp
    obtain ⟨h1, h2, h3, h4, h5, h6, h7, h8, h9, h10, h11, h12, h13, h14, h15⟩ :=
      journeyPlan_parse_elim args p hp
    exact ⟨fun hn => pNumDef_default h6 hn, fun hn => pBoolDef_default h7 hn,
      fun hn => pNumDef_default h8 hn, fun hn => pNumDef_default h9 hn,
      fun hn => pBoolDef_default h11 hn, fun hn => pWalkingSpeedDef_default h12 hn,
      fun hn => pBoolDef_default h13 hn, fun hn => pBoolDef_default h14 hn,
      fun hn => pLangDef_default h15 hn⟩
  · intro args p hp
    obtain ⟨h1, h2, h3, h4, h5⟩ := tripDetails_parse_elim args p hp
    exact ⟨fun hn => pBoolDef_default h3 hn, fun hn => pBoolDef_default h4 hn,
      fun hn => pLangDef_default h5 hn⟩
  · intro args p hp
    obtain ⟨h1, h2, h3, h4, h5, h6, h7, h8, h9⟩ := radar_parse_elim args p hp
    exact ⟨fun hn => pNumDef_default h5 hn, fun hn => pNumDef_default h6 hn,
      fun hn => pNumDef_default h7 hn, fun hn => pBoolDef_default h8 hn,
      fun hn => pLangDef_default h9 hn⟩

/-- Witness for C8: defaults filled for a minimal locations search and a
minimal radar call. -/
theorem claim_C8_witness :
    ((⟨"x", 10, true, true, false, .en⟩ : LocationsSearchParams).results = 10) ∧
    ((⟨200, 400, 100, 500, 256, 30, 3, true, .en⟩ : RadarParams).results = 256) :=
  ⟨(claim_C8_defaults.1 [("query", .str "x")] ⟨"x", 10, true, true, false, .en⟩ rfl).1 rfl,
   (claim_C8_defaults.2.2.2.2.2.2
      [("north", .num 200), ("west", .num 400), ("south", .num 100), ("east", .num 500)]
      ⟨200, 400, 100, 500, 256, 30, 3, true, .en⟩ rfl).1 rfl⟩

/-! ## Claim C7 -/

/-- Claim C7: dispatching an unregistered tool name yields the
method-not-found outcome, never an internal error; dispatching a
registered tool with arguments its schema rejects fails (as an internal
error wrapping the validation failure) without the handler running — the
outcome is the same for every HTTP oracle. -/
theorem claim_C7_dispatch :
    (∀ (name : String) (args : Args) (http : HttpOracle), ¬ name ∈ toolNames →
      dispatch name args http = .methodNotFound ("Unknown tool: " ++ name)) ∧
    (∀ (args : Args) (http : HttpOracle),
      (LocationsSearchSchema.parse args = none →
        dispatch "bvg_locations_search" args http =
          .internalError ("Tool execution failed: " ++ zodMessage)) ∧
      (NearbyLocationsSchema.parse args = none →
        dispatch "bvg_locations_nearby" args http =
          .internalError ("Tool execution failed: " ++ zodMessage)) ∧
      (StopDetailsSchema.parse args = none →
        dispatch "bvg_stop_details" args http =
          .internalError ("Tool execution failed: " ++ zodMessage)) ∧
      (StopDeparturesSchema.parse args = none →
        dispatch "bvg_stop_departures" args http =
          .internalError ("Tool execution failed: " ++ zodMessage)) ∧
      (StopDeparturesSchema.parse args = none →
        dispatch "bvg_stop_arrivals" args http =
          .internalError ("Tool execution failed: " ++ zodMessage)) ∧
      (JourneyPlanSchema.parse args = none →
        dispatch "bvg_journey_plan" args http =
          .internalError ("Tool execution failed: " ++ zodMessage)) ∧
      (TripDetailsSchema.parse args = none →
        dispatch "bvg_trip_details" args http =
          .internalError ("Tool execution failed: " ++ zodMessage)) ∧
      (RadarSchema.parse args = none →
        dispatch "bvg_radar" args http =
          .internalError ("Tool execution failed: " ++ zodMessage))) := by
  constructor
  · intro name args http h
    unfold dispatch
    split
    all_goals first
      | rfl
      | exact absurd (by decide) h
  · intro args http
    refine ⟨?_, ?_, ?_, ?_, ?_, ?_, ?_, ?_⟩ <;>
      · intro hparse
        simp [dispatch, hparse]

/-- Witness for C7: an unknown name is method-not-found; empty arguments
fail locations-search validation before any handler work. -/
theorem claim_C7_witness :
    dispatch "no_such_tool" [] (fun _ _ => ⟨200, .null⟩) =
      .methodNotFound ("Unknown tool: " ++ "no_such_tool") ∧
    dispatch "bvg_locations_search" [] (fun _ _ => ⟨200, .null⟩) =
      .internalError ("Tool execution failed: " ++ zodMessage) :=
  ⟨claim_C7_dispatch.1 "no_such_tool" [] (fun _ _ => ⟨200, .null⟩) (by decide),
   (claim_C7_dispatch.2 [] (fun _ _ => ⟨200, .null⟩)).1 rfl⟩

/-! ## Claim C1 -/

theorem takeWhile_all_eq (p : Char → Bool) (xs : List Char)
    (h : ∀ c ∈ xs, p c = true) : xs.takeWhile p = xs := by
  induction xs with
  | nil => rfl
  | cons c t ih =>
      rw [List.takeWhile_cons_of_pos (h c (by simp)),
        ih fun x hx => h x (by simp [hx])]

theorem dropWhile_all_eq (p : Char → Bool) (xs : List Char)
    (h : ∀ c ∈ xs, p c = true) : xs.dropWhile p = [] := by
  induction xs with
  | nil => rfl
  | cons c t ih =>
      rw [List.dropWhile_cons_of_pos (h c (by simp)),
        ih fun x hx => h x (by simp [hx])]

theorem splitComma_append (a b : List Char) (h : ¬ ',' ∈ a) :
    splitComma (a ++ ',' :: b) = a :: splitComma b := by
  induction a with
  | nil => simp [splitComma]
  | cons c t ih =>
      have hc : ¬ c = ',' := fun e => h (by simp [e])
      have ht : ¬ ',' ∈ t := fun e => h (by simp [e])
      simp only [List.cons_append, splitComma, if_neg hc, List.append_eq]
      rw [ih ht]

theorem splitComma_no_comma (b : List Char) (h : ¬ ',' ∈ b) : splitComma b = [b] := by
  induction b with
  | nil => rfl
  | cons c t ih =>
      have hc : ¬ c = ',' := fun e => h (by simp [e])
      have ht : ¬ ',' ∈ t := fun e => h (by simp [e])
      simp only [splitComma, if_neg hc]
      rw [ih ht]

theorem isDigit_not_ws (c : Char) (h : c.isDigit = true) : c.isWhitespace = false := by
  have hsp : ¬ c = ' ' := fun e => by subst e; exact absurd h (by decide)
  have hta : ¬ c = '\t' := fun e => by subst e; exact absurd h (by decide)
  have hcr : ¬ c = '\r' := fun e => by subst e; exact absurd h (by decide)
  have hnl : ¬ c = '\n' := fun e => by subst e; exact absurd h (by decide)
  simp [Char.isWhitespace, hsp, hta, hcr, hnl]

theorem isDigit_not_sign (c : Char) (h : c.isDigit = true) :
    ¬ c = '-' ∧ ¬ c = '+' ∧ ¬ c = 'I' := by
  refine ⟨?_, ?_, ?_⟩ <;> (intro e; subst e; exact absurd h (by decide))

theorem parseUnsignedDec_numeral (cs : List Char) (h : isUnsignedNumeral cs = true) :
    parseUnsignedDec cs = some (unsignedVal cs) := by
  rw [isUnsignedNumeral, Bool.and_eq_true] at h
  obtain ⟨hip, hrest⟩ := h
  have hip' : (cs.takeWhile Char.isDigit).isEmpty = false := by simpa using hip
  simp only [parseUnsignedDec, unsignedVal]
  split at hrest
  · rename_i heq
    simp [heq, hip', applyExp]
  · rename_i f heq
    rw [Bool.and_eq_true] at hrest
    obtain ⟨hne, hall⟩ := hrest
    have hfall : ∀ x ∈ f, Char.isDigit x = true := by simpa using hall
    simp [heq, hip', applyExp, takeWhile_all_eq Char.isDigit f hfall,
      dropWhile_all_eq Char.isDigit f hfall]
  · exact absurd hrest (by simp)

theorem isUnsignedNumeral_head (cs : List Char) (h : isUnsignedNumeral cs = true) :
    ∃ c t, cs = c :: t ∧ c.isDigit = true := by
  rcases cs with _ | ⟨c, t⟩
  · exact absurd h (by decide)
  · refine ⟨c, t, rfl, ?_⟩
    by_contra hcd
    have hcd' : Char.isDigit c = false := by simpa using hcd
    rw [isUnsignedNumeral, List.takeWhile_cons_of_neg (by simp [hcd'])] at h
    simp at h

theorem isInfinityHead_digit (c : Char) (t : List Char) (h : c.isDigit = true) :
    isInfinityHead (c :: t) = false := by
  unfold isInfinityHead
  split
  · rename_i heq
    injection heq with h1 h2
    exact absurd (h1 ▸ h) (by decide)
  · rfl

theorem parseFloatL_unsigned (cs : List Char) (h : isUnsignedNumeral cs = true) :
    parseFloatL cs = some (.finite (unsignedVal cs)) := by
  obtain ⟨c, t, rfl, hc⟩ := isUnsignedNumeral_head cs h
  obtain ⟨hminus, hplus, hI⟩ := isDigit_not_sign c hc
  have hws := isDigit_not_ws c hc
  have hneg : (match c :: t with | '-' :: _ => (true : Bool) | _ => false) = false := by
    split
    · rename_i heq
      injection heq with h1 h2
      exact absurd h1 hminus
    · rfl
  have hcs2 :
      (match c :: t with | '-' :: r => r | '+' :: r => r | _ => c :: t) = c :: t := by
    split
    · rename_i r heq
      injection heq with h1 h2
      exact absurd h1 hminus
    · rename_i r heq
      injection heq with h1 h2
      exact absurd h1 hplus
    · rfl
  simp only [parseFloatL]
  rw [List.dropWhile_cons_of_neg (by simp [hws]), hneg, hcs2,
    isInfinityHead_digit c t hc, parseUnsignedDec_numeral _ h]
  simp

theorem parseFloatL_numeral (cs : List Char) (h : isNumeral cs = true) :
    parseFloatL cs = some (.finite (numeralVal cs)) := by
  rcases cs with _ | ⟨c, t⟩
  · exact absurd h (by decide)
  · by_cases hm : c = '-'
    · subst hm
      have h' : isUnsignedNumeral t = true := h
      obtain ⟨d, r, rfl, hd⟩ := isUnsignedNumeral_head t h'
      simp only [parseFloatL]
      rw [List.dropWhile_cons_of_neg (by decide)]
      have hneg : (match '-' :: d :: r with | '-' :: _ => (true : Bool) | _ => false) =
          true := rfl
      have hcs2 : (match '-' :: d :: r with
          | '-' :: r2 => r2 | '+' :: r2 => r2 | _ => '-' :: d :: r) = d :: r := rfl
      rw [hneg, hcs2, isInfinityHead_digit d r hd, parseUnsignedDec_numeral _ h']
      simp [numeralVal]
    · have h' : isUnsignedNumeral (c :: t) = true := by
        rw [isNumeral] at h
        · exact h
        · intro tail heq
          injection heq with h1 h2
          exact hm h1
      have hval : numeralVal (c :: t) = unsignedVal (c :: t) := by
        rw [numeralVal]
        intro tail heq
        injection heq with h1 h2
        exact hm h1
      rw [hval]
      exact parseFloatL_unsigned _ h'

/-- Counterexample to claim C1 as stated: `"1,2,3"` is not of the
`<lat>,<lon>` form (it has three comma-separated components), yet
`parseCoordinates` succeeds on it, returning the first two values. -/
theorem claim_C1_counterexample :
    specCoordForm "1,2,3" = false ∧
    parseCoordinates "1,2,3" = .ok (.finite 1, .finite 2) := ⟨rfl, rfl⟩

/-- Claim C1 as amended: on an input whose two comma-free components trim
to decimal numerals, `parseCoordinates` returns exactly the parsed
(latitude, longitude) pair when both are in range, and fails with the
matching range error otherwise; inputs outside the valid form are not all
rejected (extra comma-separated components and trailing non-numeric text
are ignored by the `split`/`parseFloat` pipeline). -/
theorem claim_C1_coordinate_parsing (a b : List Char)
    (hca : ¬ ',' ∈ a) (hcb : ¬ ',' ∈ b)
    (ha : isNumeral (jsTrim a) = true) (hb : isNumeral (jsTrim b) = true) :
    (-90 ≤ numeralVal (jsTrim a) → numeralVal (jsTrim a) ≤ 90 →
      -180 ≤ numeralVal (jsTrim b) → numeralVal (jsTrim b) ≤ 180 →
      parseCoordinatesL (a ++ ',' :: b) =
        .ok (.finite (numeralVal (jsTrim a)), .finite (numeralVal (jsTrim b)))) ∧
    (numeralVal (jsTrim a) < -90 ∨ 90 < numeralVal (jsTrim a) →
      parseCoordinatesL (a ++ ',' :: b) =
        .error "Latitude must be between -90 and 90") ∧
    (-90 ≤ numeralVal (jsTrim a) → numeralVal (jsTrim a) ≤ 90 →
      (numeralVal (jsTrim b) < -180 ∨ 180 < numeralVal (jsTrim b)) →
      parseCoordinatesL (a ++ ',' :: b) =
        .error "Longitude must be between -180 and 180") := by
  have hsc : splitComma (a ++ ',' :: b) = [a, b] := by
    rw [splitComma_append a b hca, splitComma_no_comma b hcb]
  have hfa := parseFloatL_numeral (jsTrim a) ha
  have hfb := parseFloatL_numeral (jsTrim b) hb
  have hmain : parseCoordinatesL (a ++ ',' :: b) =
      if (JsFloat.finite (numeralVal (jsTrim a))).ltQ (-90) ||
          (JsFloat.finite (numeralVal (jsTrim a))).gtQ 90 then
        .error "Latitude must be between -90 and 90"
      else if (JsFloat.finite (numeralVal (jsTrim b))).ltQ (-180) ||
          (JsFloat.finite (numeralVal (jsTrim b))).gtQ 180 then
        .error "Longitude must be between -180 and 180"
      else .ok (.finite (numeralVal (jsTrim a)), .finite (numeralVal (jsTrim b))) := by
    simp only [parseCoordinatesL, hsc, List.map, hfa, hfb]
    rfl
  refine ⟨?_, ?_, ?_⟩
  · intro h1 h2 h3 h4
    rw [hmain, if_neg, if_neg]
    · simp only [JsFloat.ltQ, JsFloat.gtQ, Bool.or_eq_true, decide_eq_true_eq, not_or,
        not_lt]
      exact ⟨h3, h4⟩
    · simp only [JsFloat.ltQ, JsFloat.gtQ, Bool.or_eq_true, decide_eq_true_eq, not_or,
        not_lt]
      exact ⟨h1, h2⟩
  · intro h
    rw [hmain, if_pos]
    simp only [JsFloat.ltQ, JsFloat.gtQ, Bool.or_eq_true, decide_eq_true_eq]
    exact h
  · intro h1 h2 h
    rw [hmain, if_neg, if_pos]
    · simp only [JsFloat.ltQ, JsFloat.gtQ, Bool.or_eq_true, decide_eq_true_eq]
      exact h
    · simp only [JsFloat.ltQ, JsFloat.gtQ, Bool.or_eq_true, decide_eq_true_eq, not_or,
        not_lt]
      exact ⟨h1, h2⟩

/-- Witness for C1 at the in-range input `"52,13"`. -/
theorem claim_C1_witness :
    parseCoordinatesL ("52".toList ++ ',' :: "13".toList) =
      .ok (.finite (numeralVal (jsTrim "52".toList)),
        .finite (numeralVal (jsTrim "13".toList))) :=
  (claim_C1_coordinate_parsing "52".toList "13".toList (by decide) (by decide)
    (by decide) (by decide)).1 (by decide) (by decide) (by decide) (by decide)
